import Mathlib

/-!
Verification of the wrap resolver (pkg/resolver/wrap/resolver.go).

The Go source is shallowly embedded below: pure Go functions become Lean
functions, pointer types become Option, the mutable string variable
baseimage is threaded as explicit state through the task loop, and a Go
nil-pointer dereference (a runtime panic) is modelled as the explicit
error GoError.nilDeref.  Maps keyed by strings become association lists.
-/

namespace Wrap

/-! ## Data model (the fields of the Tekton v1beta1 types that the source reads or writes) -/

/-- Executable sub-step of a task: v1beta1.Step restricted to the fields the
source constructs (Name, Image, WorkingDir, Script). -/
structure Step where
  name : String
  image : String
  workingDir : String
  script : String
  deriving Repr, DecidableEq

/-- Declared workspace of a task spec: v1beta1.WorkspaceDeclaration with the
fields read by the source (Name, MountPath). -/
structure WorkspaceDeclaration where
  name : String
  mountPath : String
  deriving Repr, DecidableEq

/-- Workspace binding of a pipeline task: v1beta1.WorkspacePipelineTaskBinding.
Name is the task-local workspace name, workspace the pipeline-scope name. -/
structure WorkspacePipelineTaskBinding where
  name : String
  workspace : String
  deriving Repr, DecidableEq

/-- Task spec: v1beta1.TaskSpec restricted to Steps and Workspaces, the only
fields the source touches. -/
structure TaskSpec where
  steps : List Step
  workspaces : List WorkspaceDeclaration
  deriving Repr, DecidableEq

/-- Pipeline task: v1beta1.PipelineTask.  TaskRef is a nil-able pointer whose
only read field is its presence, modelled as Option String carrying the
referenced name; TaskSpec is the nil-able *EmbeddedTask pointer whose TaskSpec
field is the embedded spec. -/
structure PipelineTask where
  name : String
  taskRef : Option String
  taskSpec : Option TaskSpec
  workspaces : List WorkspacePipelineTaskBinding
  deriving Repr, DecidableEq

/-- Pipeline spec: v1beta1.PipelineSpec restricted to Tasks. -/
structure PipelineSpec where
  tasks : List PipelineTask
  deriving Repr, DecidableEq

/-- Pipeline object fetched from the cluster (metadata.name plus spec). -/
structure Pipeline where
  name : String
  spec : PipelineSpec
  deriving Repr, DecidableEq

/-- Request parameters.  The Go map[string]string is only ever read at the four
keys pipelineref, workspaces, target and wrapper, so it is modelled as a record
of the four optional entries; a Go read of an absent key yields the empty
string, modelled by Option.getD at the use sites. -/
structure Params where
  pipelineref : Option String
  workspaces : Option String
  target : Option String
  wrapper : Option String
  deriving Repr, DecidableEq

/-- Resolver configuration: the only key the source reads is default-wrapper. -/
structure ResolverConfig where
  defaultWrapper : Option String
  deriving Repr, DecidableEq

/-- Cluster contents backing the two Get calls of the source: Pipelines keyed
by name, and Tasks keyed by name (getTaskSpec looks tasks up by the pipeline
task name t.Name). -/
structure Cluster where
  pipelines : List (String × Pipeline)
  tasks : List (String × TaskSpec)
  deriving Repr, DecidableEq

/-- Errors a resolution can surface.  notFound models a k8s get failure,
taskFetch the wrapping error of resolveTaskSpecs (it records the failing task
name), and nilDeref models a Go nil-pointer dereference panic at the named
site.  missingParams is the validation error the spec describes; the source
never constructs it (see populateParamsWithDefaults). -/
inductive GoError where
  | missingParams (names : List String)
  | pipelineNotFound (name : String)
  | taskFetch (taskName : String)
  | nilDeref (site : String)
  deriving Repr, DecidableEq

/-- Result of a successful resolution: the resolved pipeline document (kept as
structured data; yaml.Marshal is the serialization boundary) plus the
PipelineRef annotation value. -/
structure ResolvedWrapperResource where
  content : Pipeline
  pipelineRef : String
  deriving Repr, DecidableEq

/-! ## Small string utilities standing in for the Go standard library calls -/

/-- Worker for replaceAll.  Scans left to right; on a match of pat it emits rep
and skips the match, else it keeps one character.  The fuel argument starts at
the length of the subject and every step with a non-empty pattern consumes at
least one character, so fuel never runs out on the calls made below. -/
def replaceAllAux (pat rep : List Char) : Nat → List Char → List Char
  | 0, s => s
  | _ + 1, [] => []
  | fuel + 1, c :: rest =>
    if pat.isPrefixOf (c :: rest) then rep ++ replaceAllAux pat rep fuel ((c :: rest).drop pat.length)
    else c :: replaceAllAux pat rep fuel rest

/-- Embedding of strings.ReplaceAll for a non-empty pattern (the source only
calls it with the constant placeholder, which is non-empty): every occurrence
of pat in s, scanned left to right without overlap, is replaced by rep. -/
def replaceAll (s pat rep : String) : String :=
  if pat.data.isEmpty then s
  else String.mk (replaceAllAux pat.data rep.data s.data.length s.data)

/-- Embedding of strings.Split with a single-character separator; like the Go
function it returns the one-element list of the empty string on empty input. -/
def splitOnChar (sep : Char) : List Char → List (List Char)
  | [] => [[]]
  | c :: rest =>
    let r := splitOnChar sep rest
    if c = sep then [] :: r
    else match r with
      | [] => [[c]]
      | g :: gs => (c :: g) :: gs

/-- Split a string at commas, as strings.Split(s, comma) does. -/
def splitComma (s : String) : List String :=
  (splitOnChar ',' s.data).map String.mk

/-- Lexicographic order on character lists, matching byte-wise string order of
Go sort.Strings on the names that occur here. -/
def charListLE : List Char → List Char → Bool
  | [], _ => true
  | _ :: _, [] => false
  | a :: as, b :: bs => if a < b then true else if b < a then false else charListLE as bs

/-- Insert a string into a sorted list of strings. -/
def insertSorted (x : String) : List String → List String
  | [] => [x]
  | y :: ys => if charListLE x.data y.data then x :: y :: ys else y :: insertSorted x ys

/-- Insertion sort on strings, the order sets.String.List returns. -/
def sortStrings : List String → List String
  | [] => []
  | x :: xs => insertSorted x (sortStrings xs)

/-- Drop duplicate strings (a set has each key once; which duplicate survives
is immaterial since the later map is keyed by the string itself). -/
def dedupStrings : List String → List String
  | [] => []
  | x :: xs => if xs.contains x then dedupStrings xs else x :: dedupStrings xs

/-- Embedding of sets.String.List on the set built from the given elements:
the sorted list of the distinct elements. -/
def setList (ws : List String) : List String := sortStrings (dedupStrings ws)

/-- Membership test of the workspace set, sets.String.Has. -/
def hasStr (ws : List String) (x : String) : Bool := ws.contains x

/-- Embedding of sets.String.HasAny: true when at least one item is in the set. -/
def hasAny (ws : List String) (items : List String) : Bool := items.any (fun i => ws.contains i)

/-- Lookup in a string-keyed association list; an absent key yields the empty
string like a Go map read. -/
def lookupD (m : List (String × String)) (k : String) : String := (m.lookup k).getD ""

/-! ## Constants of the source -/

/-- Default base image constant DefaultBaseImage. -/
def DefaultBaseImage : String := "ghcr.io/openshift-pipelines/tekton-wrap-pipeline/base:latest"

/-- Placeholder token replaced in the target template (written with escaped
braces). -/
def placeholderToken : String := "\x7b\x7bworkspace\x7d\x7d"

/-- Shebang line every generated script starts with. -/
def shebang : String := "#!/busybox/sh -e\n"

/-- Image used for both injected steps. -/
def craneImage : String := "gcr.io/go-containerregistry/crane:debug"

/-! ## Parameter validation (lines 234 to 258 and 89 to 92) -/

/-- Value of the local variable missingParams of populateParamsWithDefaults
at line 257, in the order the source appends: wrapper (when neither the
parameter nor the default-wrapper config key is present), then pipelineref,
target, workspaces when absent. -/
def missingParamsOf (conf : ResolverConfig) (params : Params) : List String :=
  (if params.wrapper.isNone ∧ conf.defaultWrapper.isNone then ["wrapper"] else []) ++
  (if params.pipelineref.isNone then ["pipelineref"] else []) ++
  (if params.target.isNone then ["target"] else []) ++
  (if params.workspaces.isNone then ["workspaces"] else [])

/-- Embedding of populateParamsWithDefaults.  It fills the wrapper parameter
from the default-wrapper config key when absent, computes missingParams (see
missingParamsOf), and then at line 257 returns the pair (params, nil): the
missing-parameter list is discarded and the error component is always none. -/
def populateParamsWithDefaults (conf : ResolverConfig) (params : Params) :
    Params × Option GoError :=
  let params :=
    if params.wrapper.isNone then
      match conf.defaultWrapper with
      | none => params
      | some v => { params with wrapper := some v }
    else params
  (params, none)

/-- Embedding of Resolver.ValidateParams: it returns exactly the error
component of populateParamsWithDefaults. -/
def validateParams (conf : ResolverConfig) (params : Params) : Option GoError :=
  (populateParamsWithDefaults conf params).2

/-! ## Task spec resolution (lines 206 to 232) -/

/-- Embedding of getTaskSpec: fetch the Task named name from the cluster and
return its spec; a miss is the k8s not-found error. -/
def getTaskSpec (cluster : Cluster) (name : String) : Except GoError TaskSpec :=
  match cluster.tasks.lookup name with
  | none => Except.error (GoError.taskFetch name)
  | some ts => Except.ok ts

/-- Embedding of resolveTaskSpecs: walk the pipeline tasks in order and build
the name-keyed map of their specs.  A task with TaskRef nil takes its embedded
spec directly (dereferencing the TaskSpec pointer: nil there is a panic); a
reference-based task is fetched via getTaskSpec using the pipeline task name
t.Name, and a fetch failure aborts with the wrapping taskFetch error. -/
def resolveTaskSpecs (cluster : Cluster) : List PipelineTask →
    Except GoError (List (String × TaskSpec))
  | [] => Except.ok []
  | t :: rest =>
    match (match t.taskRef with
           | none =>
             match t.taskSpec with
             | none => Except.error (GoError.nilDeref "resolveTaskSpecs deref of nil TaskSpec")
             | some ts => Except.ok ts
           | some _ => getTaskSpec cluster t.name) with
    | Except.error e => Except.error e
    | Except.ok ts =>
      match resolveTaskSpecs cluster rest with
      | Except.error e => Except.error e
      | Except.ok m => Except.ok ((t.name, ts) :: m)

/-! ## Script generation and the task loop (lines 121 to 190) -/

/-- Embedding of WorkspaceDeclaration.GetMountPath of the Tekton library: the
declared MountPath when non-empty, else filepath.Join of /workspace and the
name (modelled for names that are already clean path segments). -/
def WorkspaceDeclaration.getMountPath (w : WorkspaceDeclaration) : String :=
  if w.mountPath ≠ "" then w.mountPath
  else if w.name = "" then "/workspace" else "/workspace/" ++ w.name

/-- Declaration the inner loops select for a task-local workspace name: the Go
code starts from the zero value and overwrites on every d.Name match, so the
last matching declaration wins and no match leaves the zero value. -/
def declFor (decls : List WorkspaceDeclaration) (localName : String) : WorkspaceDeclaration :=
  decls.foldl (fun acc d => if d.name = localName then d else acc)
    { name := "", mountPath := "" }

/-- Injected import step (lines 156 to 161) wrapping the given script. -/
def importStepOf (script : String) : Step :=
  { name := "import-workspace", image := craneImage, workingDir := "/", script := script }

/-- Injected export step (lines 182 to 187) wrapping the given script. -/
def exportStepOf (script : String) : Step :=
  { name := "export-workspace", image := craneImage, workingDir := "/", script := script }

/-- Body of the import-script loop of lines 142 to 155.  The state argument b
is the mutable variable baseimage; for every binding pw whose pipeline-scope
workspace is in the requested set, baseimage is first assigned the target
image of that workspace and one extract chunk is appended.  Returns the
accumulated script text after the shebang and the final baseimage. -/
def importChunks (ws : List String) (wt : List (String × String))
    (decls : List WorkspaceDeclaration) :
    String → List WorkspacePipelineTaskBinding → String × String
  | b, [] => ("", b)
  | b, pw :: rest =>
    if hasStr ws pw.workspace then
      let img := lookupD wt pw.workspace
      let w := declFor decls pw.name
      let chunk := "echo \"Extract workspace content from " ++ img ++ " in " ++
        w.getMountPath ++ "\"\ncrane export " ++ img ++ " | tar -x -C " ++
        w.getMountPath ++ "\n"
      let r := importChunks ws wt decls img rest
      (chunk ++ r.1, r.2)
    else importChunks ws wt decls b rest

/-- Body of the export-script loop of lines 166 to 181.  When isFirst is false
(task index not zero) baseimage is reassigned the target image before use;
when isFirst is true the incoming baseimage is used as the append base.  The
append target is always the target image of the workspace. -/
def exportChunks (isFirst : Bool) (ws : List String) (wt : List (String × String))
    (decls : List WorkspaceDeclaration) :
    String → List WorkspacePipelineTaskBinding → String × String
  | b, [] => ("", b)
  | b, pw :: rest =>
    if hasStr ws pw.workspace then
      let b2 := if isFirst then b else lookupD wt pw.workspace
      let tgt := lookupD wt pw.workspace
      let w := declFor decls pw.name
      let chunk := "echo \"Export workspace content from " ++ w.getMountPath ++
        " to " ++ tgt ++ "\"\n(cd " ++ w.getMountPath ++
        " && tar -f - -c . | crane append -b " ++ b2 ++ " -t " ++ tgt ++ " -f -)\n"
      let r := exportChunks isFirst ws wt decls b2 rest
      (chunk ++ r.1, r.2)
    else exportChunks isFirst ws wt decls b rest

/-- Body of the task loop of lines 127 to 190 for the task at index i, with
the mutable baseimage threaded as state b.  A task touching none of the
requested workspaces is skipped unchanged (the continue at line 134).  For a
participating task the resolved spec s0 is fetched from the taskSpecs map (a
missing entry would be a nil map value whose later dereference panics); when i
is not zero a combined import step is prepended, a combined export step is
always appended, and the binding is rewritten in place: TaskRef is set to nil
and the mutated spec is written through the TaskSpec pointer, whose nil-ness
panics (line 189). -/
def transformTask (ws : List String) (wt : List (String × String))
    (ts : List (String × TaskSpec)) (i : Nat) (b : String) (t : PipelineTask) :
    Except GoError (PipelineTask × String) :=
  if hasAny ws (t.workspaces.map (fun u => u.workspace)) then
    match ts.lookup t.name with
    | none => Except.error (GoError.nilDeref "taskSpecs map miss")
    | some s0 =>
      let p1 : TaskSpec × String :=
        if i ≠ 0 then
          let ic := importChunks ws wt s0.workspaces b t.workspaces
          ({ s0 with steps := importStepOf (shebang ++ ic.1) :: s0.steps }, ic.2)
        else (s0, b)
      let ec := exportChunks (i == 0) ws wt p1.1.workspaces p1.2 t.workspaces
      let s2 := { p1.1 with steps := p1.1.steps ++ [exportStepOf (shebang ++ ec.1)] }
      match t.taskSpec with
      | none => Except.error (GoError.nilDeref "assign through nil TaskSpec pointer")
      | some _ => Except.ok ({ t with taskRef := none, taskSpec := some s2 }, ec.2)
  else Except.ok (t, b)

/-- The task loop itself: left to right over the tasks, counting the index
from i and threading baseimage. -/
def transformTasks (ws : List String) (wt : List (String × String))
    (ts : List (String × TaskSpec)) :
    Nat → String → List PipelineTask → Except GoError (List PipelineTask × String)
  | _, b, [] => Except.ok ([], b)
  | i, b, t :: rest =>
    match transformTask ws wt ts i b t with
    | Except.error e => Except.error e
    | Except.ok (t2, b2) =>
      match transformTasks ws wt ts (i + 1) b2 rest with
      | Except.error e => Except.error e
      | Except.ok (rest2, b3) => Except.ok (t2 :: rest2, b3)

/-! ## Resolve (lines 95 to 204) -/

/-- Requested workspace set of a populated parameter map: the comma-split of
the workspaces parameter (an absent key reads as the empty string).  Set
membership coincides with list membership. -/
def requestedWorkspaces (params : Params) : List String :=
  splitComma (params.workspaces.getD "")

/-- Target image map of lines 122 to 125: for every workspace name in the set
(iterated in the sorted order of sets.String.List), every occurrence of the
placeholder in the target template is replaced by the name. -/
def wtargetimages (ws : List String) (target : String) : List (String × String) :=
  (setList ws).map (fun w => (w, replaceAll target placeholderToken w))

/-- Embedding of Resolver.Resolve.  Parameters are populated (the error branch
of lines 101 to 104 is kept although populateParamsWithDefaults never fails),
the pipeline is fetched by the pipelineref parameter, the requested workspace
set is split out, task specs are resolved, the target image map is built, and
the task loop runs over a deep copy of the pipeline starting with baseimage
DefaultBaseImage; the result carries the rewritten pipeline and the
PipelineRef annotation. -/
def resolve (conf : ResolverConfig) (cluster : Cluster) (origParams : Params) :
    Except GoError ResolvedWrapperResource :=
  match (populateParamsWithDefaults conf origParams).2 with
  | some e => Except.error e
  | none =>
    let params := (populateParamsWithDefaults conf origParams).1
    match cluster.pipelines.lookup (params.pipelineref.getD "") with
    | none => Except.error (GoError.pipelineNotFound (params.pipelineref.getD ""))
    | some pipeline =>
      let ws := requestedWorkspaces params
      match resolveTaskSpecs cluster pipeline.spec.tasks with
      | Except.error e => Except.error e
      | Except.ok taskSpecs =>
        let wt := wtargetimages ws (params.target.getD "")
        match transformTasks ws wt taskSpecs 0 DefaultBaseImage pipeline.spec.tasks with
        | Except.error e => Except.error e
        | Except.ok (newTasks, _) =>
          Except.ok { content := { name := pipeline.name, spec := { tasks := newTasks } },
                      pipelineRef := params.pipelineref.getD "" }

/-! ## Concrete request fixtures used to evaluate the embedding -/

/-- Resolver configuration with no default-wrapper key. -/
def emptyConfig : ResolverConfig := { defaultWrapper := none }

/-- Request parameter map with all four recognized keys absent. -/
def emptyParams : Params :=
  { pipelineref := none, workspaces := none, target := none, wrapper := none }

/-- Small task spec with one original sub-step and one declared workspace. -/
def demoSpec : TaskSpec :=
  { steps := [{ name := "run", image := "img", workingDir := "", script := "x" }],
    workspaces := [{ name := "ws", mountPath := "" }] }

/-- Inline task named n binding its local workspace ws to the pipeline-scope
workspace src. -/
def demoTask (n : String) : PipelineTask :=
  { name := n, taskRef := none, taskSpec := some demoSpec,
    workspaces := [{ name := "ws", workspace := "src" }] }

/-- Inline task that uses no workspace at all. -/
def plainTask : PipelineTask :=
  { name := "plain", taskRef := none, taskSpec := some demoSpec, workspaces := [] }

/-- Three-task pipeline: tasks zero and one use src, the last task uses none. -/
def demoPipeline : Pipeline :=
  { name := "p", spec := { tasks := [demoTask "t0", demoTask "t1", plainTask] } }

/-- Cluster holding the demo pipeline. -/
def demoCluster : Cluster := { pipelines := [("p", demoPipeline)], tasks := [] }

/-- Valid request parameters for the demo pipeline. -/
def demoParams : Params :=
  { pipelineref := some "p", workspaces := some "src",
    target := some "repo/\x7b\x7bworkspace\x7d\x7d", wrapper := some "w" }

/-- Task spec map resolveTaskSpecs produces for the demo pipeline. -/
def demoSpecs : List (String × TaskSpec) :=
  [("t0", demoSpec), ("t1", demoSpec), ("plain", demoSpec)]

/-- Resolved output of the demo request (the request does resolve, so the
fallback branch is never taken). -/
def demoRes : ResolvedWrapperResource :=
  match resolve emptyConfig demoCluster demoParams with
  | Except.ok r => r
  | Except.error _ => { content := { name := "", spec := { tasks := [] } }, pipelineRef := "" }

/-- Reference-based task (TaskRef set, TaskSpec pointer nil) that uses the
requested workspace src. -/
def refTask : PipelineTask :=
  { name := "build", taskRef := some "build", taskSpec := none,
    workspaces := [{ name := "ws", workspace := "src" }] }

/-- Pipeline whose only task is the reference-based one. -/
def refPipeline : Pipeline := { name := "p", spec := { tasks := [refTask] } }

/-- Cluster holding the reference pipeline and the referenced task. -/
def refCluster : Cluster :=
  { pipelines := [("p", refPipeline)], tasks := [("build", demoSpec)] }

/-- Reference-based task that uses no workspace. -/
def refPlainTask : PipelineTask :=
  { name := "other", taskRef := some "other", taskSpec := none, workspaces := [] }

/-- Pipeline whose only task is the non-participating reference-based one. -/
def refPlainPipeline : Pipeline := { name := "p", spec := { tasks := [refPlainTask] } }

/-- Cluster holding the non-participating reference pipeline. -/
def refPlainCluster : Cluster :=
  { pipelines := [("p", refPlainPipeline)], tasks := [("other", demoSpec)] }

/-- Parameters identical to demoParams except for the wrapper entry. -/
def demoParamsAltWrapper : Params :=
  { pipelineref := some "p", workspaces := some "src",
    target := some "repo/\x7b\x7bworkspace\x7d\x7d", wrapper := none }

/-! ## Helper lemmas about the embedding -/

lemma populate_err (conf : ResolverConfig) (p : Params) :
    (populateParamsWithDefaults conf p).2 = none := rfl

lemma populate_pipelineref (conf : ResolverConfig) (p : Params) :
    ((populateParamsWithDefaults conf p).1).pipelineref = p.pipelineref := by
  unfold populateParamsWithDefaults
  cases h : p.wrapper.isNone <;> cases conf.defaultWrapper <;> simp [h]

lemma populate_workspaces (conf : ResolverConfig) (p : Params) :
    ((populateParamsWithDefaults conf p).1).workspaces = p.workspaces := by
  unfold populateParamsWithDefaults
  cases h : p.wrapper.isNone <;> cases conf.defaultWrapper <;> simp [h]

lemma populate_target (conf : ResolverConfig) (p : Params) :
    ((populateParamsWithDefaults conf p).1).target = p.target := by
  unfold populateParamsWithDefaults
  cases h : p.wrapper.isNone <;> cases conf.defaultWrapper <;> simp [h]

lemma mem_dedupStrings {a : String} : ∀ {l : List String}, a ∈ dedupStrings l ↔ a ∈ l := by
  intro l
  induction l with
  | nil => simp [dedupStrings]
  | cons x xs ih =>
    by_cases hx : x ∈ xs
    · have hc : xs.contains x = true := List.elem_eq_true_of_mem hx
      simp only [dedupStrings, hc, if_pos, ih, List.mem_cons]
      constructor
      · exact Or.inr
      · rintro (rfl | h)
        · exact hx
        · exact h
    · have hc : xs.contains x = false := by simpa using hx
      simp [dedupStrings, hc, hx, ih, List.mem_cons]

lemma mem_insertSorted {a x : String} : ∀ {l : List String},
    a ∈ insertSorted x l ↔ a = x ∨ a ∈ l := by
  intro l
  induction l with
  | nil => simp [insertSorted]
  | cons y ys ih =>
    by_cases h : charListLE x.data y.data
    · simp [insertSorted, h, List.mem_cons]
    · simp only [insertSorted, h, if_neg, Bool.false_eq_true, not_false_iff, List.mem_cons, ih]
      tauto

lemma mem_sortStrings {a : String} : ∀ {l : List String}, a ∈ sortStrings l ↔ a ∈ l := by
  intro l
  induction l with
  | nil => simp [sortStrings]
  | cons x xs ih => simp [sortStrings, mem_insertSorted, ih, List.mem_cons]

lemma mem_setList {a : String} {l : List String} : a ∈ setList l ↔ a ∈ l := by
  unfold setList
  rw [mem_sortStrings, mem_dedupStrings]

lemma lookup_keyed_map (f : String → String) {w : String} : ∀ {keys : List String},
    w ∈ keys → List.lookup w (keys.map (fun k => (k, f k))) = some (f w) := by
  intro keys
  induction keys with
  | nil => intro h; cases h
  | cons k rest ih =>
    intro h
    by_cases hk : w = k
    · subst hk
      simp [List.lookup]
    · rcases List.mem_cons.mp h with h1 | h2
      · exact absurd h1 hk
      · simpa [List.lookup, beq_false_of_ne hk] using ih h2

lemma importChunks_text (ws : List String) (wt : List (String × String))
    (decls : List WorkspaceDeclaration) :
    ∀ (us : List WorkspacePipelineTaskBinding) (b b2 : String),
      (importChunks ws wt decls b us).1 = (importChunks ws wt decls b2 us).1 := by
  intro us
  induction us with
  | nil => intro b b2; rfl
  | cons pw rest ih =>
    intro b b2
    by_cases h : hasStr ws pw.workspace
    · simp only [importChunks, h, if_pos]
    · simp only [importChunks, h, Bool.false_eq_true, if_neg, not_false_iff]
      exact ih b b2

lemma exportChunks_text (ws : List String) (wt : List (String × String))
    (decls : List WorkspaceDeclaration) :
    ∀ (us : List WorkspacePipelineTaskBinding) (b b2 : String),
      (exportChunks false ws wt decls b us).1 = (exportChunks false ws wt decls b2 us).1 := by
  intro us
  induction us with
  | nil => intro b b2; rfl
  | cons pw rest ih =>
    intro b b2
    by_cases h : hasStr ws pw.workspace
    · simp [exportChunks, h]
    · simp only [exportChunks, h, Bool.false_eq_true, if_neg, not_false_iff]
      exact ih b b2

lemma requestedWorkspaces_populate (conf : ResolverConfig) (p : Params) :
    requestedWorkspaces (populateParamsWithDefaults conf p).1 = requestedWorkspaces p := by
  unfold requestedWorkspaces
  rw [populate_workspaces]

lemma transformTask_skip (ws : List String) (wt : List (String × String))
    (ts : List (String × TaskSpec)) (i : Nat) (b : String) (t : PipelineTask)
    (h : hasAny ws (t.workspaces.map (fun u => u.workspace)) = false) :
    transformTask ws wt ts i b t = Except.ok (t, b) := by
  simp [transformTask, h]

lemma transformTask_hit_zero (ws : List String) (wt : List (String × String))
    (ts : List (String × TaskSpec)) (b : String) (t : PipelineTask) (s0 e : TaskSpec)
    (hint : hasAny ws (t.workspaces.map (fun u => u.workspace)) = true)
    (hlk : ts.lookup t.name = some s0)
    (hts : t.taskSpec = some e) :
    transformTask ws wt ts 0 b t =
      Except.ok
        ({ t with
            taskRef := none,
            taskSpec := some { s0 with steps := s0.steps ++
              [exportStepOf (shebang ++ (exportChunks true ws wt s0.workspaces b t.workspaces).1)] } },
          (exportChunks true ws wt s0.workspaces b t.workspaces).2) := by
  simp [transformTask, hint, hlk, hts]

lemma transformTask_hit_pos (ws : List String) (wt : List (String × String))
    (ts : List (String × TaskSpec)) (i : Nat) (b : String) (t : PipelineTask) (s0 e : TaskSpec)
    (hi : i ≠ 0)
    (hint : hasAny ws (t.workspaces.map (fun u => u.workspace)) = true)
    (hlk : ts.lookup t.name = some s0)
    (hts : t.taskSpec = some e) :
    transformTask ws wt ts i b t =
      Except.ok
        ({ t with
            taskRef := none,
            taskSpec := some { s0 with steps :=
                                importStepOf (shebang ++ (importChunks ws wt s0.workspaces b t.workspaces).1) ::
                                  (s0.steps ++
                                    [exportStepOf (shebang ++
                                      (exportChunks false ws wt s0.workspaces
                                        (importChunks ws wt s0.workspaces b t.workspaces).2 t.workspaces).1)]) } },
          (exportChunks false ws wt s0.workspaces
            (importChunks ws wt s0.workspaces b t.workspaces).2 t.workspaces).2) := by
  have hb : (i == 0) = false := by simpa using hi
  simp [transformTask, hint, hlk, hts, hi, hb]

lemma transformTask_fields (ws : List String) (wt : List (String × String))
    (ts : List (String × TaskSpec)) (i : Nat) (b : String) (t t2 : PipelineTask) (b2 : String)
    (h : transformTask ws wt ts i b t = Except.ok (t2, b2)) :
    t2.name = t.name ∧ t2.workspaces = t.workspaces := by
  by_cases hint : hasAny ws (t.workspaces.map (fun u => u.workspace)) = true
  · cases hlk : ts.lookup t.name with
    | none => rw [transformTask] at h; simp [hint, hlk] at h
    | some s0 =>
      cases hts : t.taskSpec with
      | none =>
        rw [transformTask] at h
        by_cases hi : i ≠ 0 <;> simp [hint, hlk, hts, hi] at h
      | some e =>
        by_cases hi : i = 0
        · subst hi
          rw [transformTask_hit_zero ws wt ts b t s0 e hint hlk hts] at h
          simp only [Except.ok.injEq, Prod.mk.injEq] at h
          obtain ⟨h1, -⟩ := h
          subst h1
          exact ⟨rfl, rfl⟩
        · rw [transformTask_hit_pos ws wt ts i b t s0 e hi hint hlk hts] at h
          simp only [Except.ok.injEq, Prod.mk.injEq] at h
          obtain ⟨h1, -⟩ := h
          subst h1
          exact ⟨rfl, rfl⟩
  · have hno : hasAny ws (t.workspaces.map (fun u => u.workspace)) = false := by
      simpa using hint
    rw [transformTask_skip ws wt ts i b t hno] at h
    simp only [Except.ok.injEq, Prod.mk.injEq] at h
    obtain ⟨h1, -⟩ := h
    subst h1
    exact ⟨rfl, rfl⟩

lemma transformTask_hit_ok (ws : List String) (wt : List (String × String))
    (ts : List (String × TaskSpec)) (i : Nat) (b : String) (t t2 : PipelineTask) (b2 : String)
    (hint : hasAny ws (t.workspaces.map (fun u => u.workspace)) = true)
    (h : transformTask ws wt ts i b t = Except.ok (t2, b2)) :
    t2.taskRef = none ∧ t2.taskSpec.isSome = true := by
  cases hlk : ts.lookup t.name with
  | none => rw [transformTask] at h; simp [hint, hlk] at h
  | some s0 =>
    cases hts : t.taskSpec with
    | none =>
      rw [transformTask] at h
      by_cases hi : i ≠ 0 <;> simp [hint, hlk, hts, hi] at h
    | some e =>
      by_cases hi : i = 0
      · subst hi
        rw [transformTask_hit_zero ws wt ts b t s0 e hint hlk hts] at h
        simp only [Except.ok.injEq, Prod.mk.injEq] at h
        obtain ⟨h1, -⟩ := h
        subst h1
        exact ⟨rfl, rfl⟩
      · rw [transformTask_hit_pos ws wt ts i b t s0 e hi hint hlk hts] at h
        simp only [Except.ok.injEq, Prod.mk.injEq] at h
        obtain ⟨h1, -⟩ := h
        subst h1
        exact ⟨rfl, rfl⟩

lemma transformTasks_names (ws : List String) (wt : List (String × String))
    (ts : List (String × TaskSpec)) :
    ∀ (l : List PipelineTask) (i : Nat) (b : String) (out : List PipelineTask × String),
      transformTasks ws wt ts i b l = Except.ok out →
      out.1.map (fun t => t.name) = l.map (fun t => t.name) := by
  intro l
  induction l with
  | nil =>
    intro i b out h
    rw [transformTasks] at h
    simp only [Except.ok.injEq] at h
    subst h
    rfl
  | cons t rest ih =>
    intro i b out h
    rw [transformTasks] at h
    split at h
    · simp at h
    · rename_i t2 b2 h1
      split at h
      · simp at h
      · rename_i rest2 b3 h2
        simp only [Except.ok.injEq] at h
        subst h
        have hn := (transformTask_fields ws wt ts i b t t2 b2 h1).1
        simp only [List.map_cons, hn, ih (i + 1) b2 (rest2, b3) h2]

lemma transformTasks_pointwise (ws : List String) (wt : List (String × String))
    (ts : List (String × TaskSpec)) :
    ∀ (l : List PipelineTask) (i : Nat) (b : String) (out : List PipelineTask × String),
      transformTasks ws wt ts i b l = Except.ok out →
      (∀ (t : PipelineTask), l[0]? = some t →
        ∃ bh th, transformTask ws wt ts i b t = Except.ok (th, bh) ∧ out.1[0]? = some th) ∧
      (∀ (j : Nat) (t : PipelineTask), l[j]? = some t →
        ∃ bj bj2 tj, transformTask ws wt ts (i + j) bj t = Except.ok (tj, bj2) ∧
          out.1[j]? = some tj) := by
  intro l
  induction l with
  | nil =>
    intro i b out h
    rw [transformTasks] at h
    simp only [Except.ok.injEq] at h
    subst h
    constructor
    · intro t ht; simp at ht
    · intro j t ht; simp at ht
  | cons t rest ih =>
    intro i b out h
    rw [transformTasks] at h
    split at h
    · simp at h
    · rename_i t2 b2 h1
      split at h
      · simp at h
      · rename_i rest2 b3 h2
        simp only [Except.ok.injEq] at h
        subst h
        obtain ⟨-, ihp⟩ := ih (i + 1) b2 (rest2, b3) h2
        constructor
        · intro t0 ht0
          simp only [List.getElem?_cons_zero, Option.some.injEq] at ht0
          subst ht0
          exact ⟨b2, t2, h1, by simp⟩
        · intro j t0 ht0
          cases j with
          | zero =>
            simp only [List.getElem?_cons_zero, Option.some.injEq] at ht0
            subst ht0
            exact ⟨b, b2, t2, by simpa using h1, by simp⟩
          | succ k =>
            simp only [List.getElem?_cons_succ] at ht0
            obtain ⟨bj, bj2, tj, hx, hy⟩ := ihp k t0 ht0
            refine ⟨bj, bj2, tj, ?_, ?_⟩
            · have harith : i + (k + 1) = (i + 1) + k := by omega
              rw [harith]
              exact hx
            · simpa using hy

lemma resolve_ok_inv {conf : ResolverConfig} {cluster : Cluster} {origParams : Params}
    {res : ResolvedWrapperResource}
    (h : resolve conf cluster origParams = Except.ok res) :
    ∃ (pl : Pipeline) (specs : List (String × TaskSpec)) (newTasks : List PipelineTask)
      (bfin : String),
      cluster.pipelines.lookup (origParams.pipelineref.getD "") = some pl ∧
      resolveTaskSpecs cluster pl.spec.tasks = Except.ok specs ∧
      transformTasks (requestedWorkspaces origParams)
        (wtargetimages (requestedWorkspaces origParams) (origParams.target.getD ""))
        specs 0 DefaultBaseImage pl.spec.tasks = Except.ok (newTasks, bfin) ∧
      res.content.spec.tasks = newTasks ∧ res.content.name = pl.name ∧
      res.pipelineRef = origParams.pipelineref.getD "" := by
  rw [resolve] at h
  split at h
  · simp at h
  · dsimp only at h
    split at h
    · simp at h
    · rename_i pl hpl
      split at h
      · simp at h
      · rename_i specs hspecs
        split at h
        · simp at h
        · rename_i pr newTasks bfin htr
          simp only [Except.ok.injEq] at h
          rw [populate_pipelineref] at hpl
          rw [requestedWorkspaces_populate, populate_target] at htr
          refine ⟨pl, specs, newTasks, bfin, hpl, hspecs, htr, ?_, ?_, ?_⟩
          · rw [← h]
          · rw [← h]
          · rw [← h]
            simp only
            rw [populate_pipelineref]

/-- Second resolver configuration, carrying a default-wrapper value, for the
wrapper-independence witness. -/
def dwConfig : ResolverConfig := { defaultWrapper := some "dw" }

/-- Cluster with no pipelines and no tasks. -/
def emptyCluster : Cluster := { pipelines := [], tasks := [] }

/-! ## Claims -/

/-- C1: the claim says that with pipelineref, target and workspaces absent, no
wrapper parameter and no default-wrapper config key, validation returns a
MissingParameter error listing exactly the four names.  The code computes
exactly that list in its local missingParams variable and then discards it:
ValidateParams returns no error on the fully empty request, and Resolve runs
on past validation (failing only later, at the pipeline lookup). -/
theorem C1_validation_never_fails :
    missingParamsOf emptyConfig emptyParams = ["wrapper", "pipelineref", "target", "workspaces"] ∧
    validateParams emptyConfig emptyParams = none ∧
    resolve emptyConfig emptyCluster emptyParams = Except.error (GoError.pipelineNotFound "") :=
  ⟨rfl, rfl, rfl⟩

/-- C2: the claim says Resolve never dereferences the absent inline-template
field when replacing a reference-based binding.  On a pipeline whose only task
is reference-based (TaskRef set, TaskSpec pointer nil) and uses the requested
workspace src, the embedded Resolve reaches the assignment of line 189 and
dereferences the nil TaskSpec pointer, modelled as the nilDeref panic. -/
theorem C2_resolve_derefs_nil_taskspec :
    resolve emptyConfig refCluster demoParams =
      Except.error (GoError.nilDeref "assign through nil TaskSpec pointer") := rfl

/-- C3 as stated is false: a resolution that succeeds can leave a
reference-based binding in the output.  The request resolves the pipeline
whose only task is reference-based and uses none of the requested workspaces;
the output keeps its TaskRef, so not all bindings are inline. -/
theorem C3_counterexample :
    Except.map (fun r => r.content.spec.tasks.all (fun t => t.taskRef.isNone))
      (resolve emptyConfig refPlainCluster demoParams) = Except.ok false := rfl

/-- C3 amended: in every resolved output, every step binding whose workspace
uses intersect the requested workspace set is inline, its reference cleared
and an inline spec present; bindings with no intersecting workspace keep
their original (possibly reference-based) binding. -/
theorem C3_participating_bindings_inline (conf : ResolverConfig) (cluster : Cluster)
    (params : Params) (res : ResolvedWrapperResource) (pl : Pipeline) (j : Nat)
    (t : PipelineTask)
    (h : resolve conf cluster params = Except.ok res)
    (hpl : cluster.pipelines.lookup (params.pipelineref.getD "") = some pl)
    (hj : pl.spec.tasks[j]? = some t)
    (hint : hasAny (requestedWorkspaces params) (t.workspaces.map (fun u => u.workspace)) = true) :
    res.content.spec.tasks[j]?.map (fun t2 => t2.taskRef) = some none ∧
    res.content.spec.tasks[j]?.map (fun t2 => t2.taskSpec.isSome) = some true := by
  obtain ⟨pl0, specs, newTasks, bfin, hpl0, hspecs, htr, hres, -, -⟩ := resolve_ok_inv h
  rw [hpl0] at hpl
  injection hpl with hpl
  subst hpl
  obtain ⟨-, hpt⟩ := transformTasks_pointwise _ _ _ _ _ _ _ htr
  obtain ⟨bj, bj2, tj, hx, hy⟩ := hpt j t hj
  have hok := transformTask_hit_ok _ _ _ _ _ _ _ _ hint hx
  rw [hres, hy]
  constructor
  · simp [hok.1]
  · simp [hok.2]

/-- Closed instance of the amended C3 theorem: in the demo request the task at
index one uses the requested workspace src and its output binding is inline. -/
theorem C3_witness :
    demoRes.content.spec.tasks[1]?.map (fun t2 => t2.taskRef) = some none ∧
    demoRes.content.spec.tasks[1]?.map (fun t2 => t2.taskSpec.isSome) = some true :=
  C3_participating_bindings_inline emptyConfig demoCluster demoParams demoRes demoPipeline 1
    (demoTask "t1") rfl rfl rfl rfl

/-- C6: a step whose workspace uses have empty intersection with the requested
workspace set appears in the output byte-identical to the input binding: same
sub-step list, same template source, same name, same workspace uses. -/
theorem C6_untouched_step (conf : ResolverConfig) (cluster : Cluster)
    (params : Params) (res : ResolvedWrapperResource) (pl : Pipeline) (j : Nat)
    (t : PipelineTask)
    (h : resolve conf cluster params = Except.ok res)
    (hpl : cluster.pipelines.lookup (params.pipelineref.getD "") = some pl)
    (hj : pl.spec.tasks[j]? = some t)
    (hno : hasAny (requestedWorkspaces params) (t.workspaces.map (fun u => u.workspace)) = false) :
    res.content.spec.tasks[j]? = some t := by
  obtain ⟨pl0, specs, newTasks, bfin, hpl0, hspecs, htr, hres, -, -⟩ := resolve_ok_inv h
  rw [hpl0] at hpl
  injection hpl with hpl
  subst hpl
  obtain ⟨-, hpt⟩ := transformTasks_pointwise _ _ _ _ _ _ _ htr
  obtain ⟨bj, bj2, tj, hx, hy⟩ := hpt j t hj
  rw [transformTask_skip _ _ _ _ _ _ hno] at hx
  simp only [Except.ok.injEq, Prod.mk.injEq] at hx
  rw [hres, hy, hx.1]

/-- Closed instance of the C6 theorem: the workspace-free task at index two of
the demo pipeline is unchanged in the output. -/
theorem C6_witness : demoRes.content.spec.tasks[2]? = some plainTask :=
  C6_untouched_step emptyConfig demoCluster demoParams demoRes demoPipeline 2
    plainTask rfl rfl rfl rfl

/-- C7: the output pipeline has the same number of steps as the input, in the
same order with the same names; injection happens only inside bindings, never
as new top-level steps. -/
theorem C7_same_steps_same_order (conf : ResolverConfig) (cluster : Cluster)
    (params : Params) (res : ResolvedWrapperResource) (pl : Pipeline)
    (h : resolve conf cluster params = Except.ok res)
    (hpl : cluster.pipelines.lookup (params.pipelineref.getD "") = some pl) :
    res.content.spec.tasks.length = pl.spec.tasks.length ∧
    res.content.spec.tasks.map (fun t => t.name) = pl.spec.tasks.map (fun t => t.name) := by
  obtain ⟨pl0, specs, newTasks, bfin, hpl0, -, htr, hres, -, -⟩ := resolve_ok_inv h
  rw [hpl0] at hpl
  injection hpl with hpl
  subst hpl
  have hn := transformTasks_names _ _ _ _ _ _ _ htr
  constructor
  · have hlen := congrArg List.length hn
    simpa [hres] using hlen
  · rw [hres]
    exact hn

/-- Closed instance of the C7 theorem at the demo request. -/
theorem C7_witness :
    demoRes.content.spec.tasks.length = demoPipeline.spec.tasks.length ∧
    demoRes.content.spec.tasks.map (fun t => t.name) =
      demoPipeline.spec.tasks.map (fun t => t.name) :=
  C7_same_steps_same_order emptyConfig demoCluster demoParams demoRes demoPipeline rfl rfl

/-- C4: for a step at index above zero whose workspace uses intersect the
requested set, the output sub-step list is the original list with exactly one
combined import sub-step prepended and exactly one combined export sub-step
appended, one container step per direction. -/
theorem C4_one_import_one_export (conf : ResolverConfig) (cluster : Cluster)
    (params : Params) (res : ResolvedWrapperResource) (pl : Pipeline)
    (specs : List (String × TaskSpec)) (j : Nat) (t : PipelineTask) (s0 : TaskSpec)
    (h : resolve conf cluster params = Except.ok res)
    (hpl : cluster.pipelines.lookup (params.pipelineref.getD "") = some pl)
    (hspecs : resolveTaskSpecs cluster pl.spec.tasks = Except.ok specs)
    (hj : pl.spec.tasks[j]? = some t)
    (hj0 : j ≠ 0)
    (hint : hasAny (requestedWorkspaces params) (t.workspaces.map (fun u => u.workspace)) = true)
    (hlk : specs.lookup t.name = some s0) :
    res.content.spec.tasks[j]?.map (fun t2 => t2.taskSpec.map (fun s => s.steps)) =
      some (some (
        importStepOf (shebang ++ (importChunks (requestedWorkspaces params)
            (wtargetimages (requestedWorkspaces params) (params.target.getD ""))
            s0.workspaces DefaultBaseImage t.workspaces).1) ::
          (s0.steps ++
            [exportStepOf (shebang ++ (exportChunks false (requestedWorkspaces params)
              (wtargetimages (requestedWorkspaces params) (params.target.getD ""))
              s0.workspaces DefaultBaseImage t.workspaces).1)]))) := by
  obtain ⟨pl0, specs0, newTasks, bfin, hpl0, hspecs0, htr, hres, -, -⟩ := resolve_ok_inv h
  rw [hpl0] at hpl
  injection hpl with hpl
  subst hpl
  rw [hspecs0] at hspecs
  injection hspecs with hspecs
  subst hspecs
  obtain ⟨-, hpt⟩ := transformTasks_pointwise _ _ _ _ _ _ _ htr
  obtain ⟨bj, bj2, tj, hx, hy⟩ := hpt j t hj
  have hij : 0 + j ≠ 0 := by omega
  cases hts : t.taskSpec with
  | none =>
    rw [transformTask] at hx
    simp [hint, hlk, hts, hij] at hx
  | some e =>
    rw [transformTask_hit_pos _ _ _ _ _ _ _ e hij hint hlk hts] at hx
    simp only [Except.ok.injEq, Prod.mk.injEq] at hx
    obtain ⟨hx1, -⟩ := hx
    subst hx1
    rw [hres, hy]
    have e1 := importChunks_text (requestedWorkspaces params)
      (wtargetimages (requestedWorkspaces params) (params.target.getD ""))
      s0.workspaces t.workspaces bj DefaultBaseImage
    have e2 := exportChunks_text (requestedWorkspaces params)
      (wtargetimages (requestedWorkspaces params) (params.target.getD ""))
      s0.workspaces t.workspaces
      (importChunks (requestedWorkspaces params)
        (wtargetimages (requestedWorkspaces params) (params.target.getD ""))
        s0.workspaces bj t.workspaces).2 DefaultBaseImage
    simp [e1, e2]

/-- Closed instance of the C4 theorem: the task at index one of the demo
request gains exactly one import sub-step in front and one export sub-step at
the end of its original sub-step list. -/
theorem C4_witness :
    demoRes.content.spec.tasks[1]?.map (fun t2 => t2.taskSpec.map (fun s => s.steps)) =
      some (some (
        importStepOf (shebang ++ (importChunks (requestedWorkspaces demoParams)
            (wtargetimages (requestedWorkspaces demoParams) (demoParams.target.getD ""))
            demoSpec.workspaces DefaultBaseImage (demoTask "t1").workspaces).1) ::
          (demoSpec.steps ++
            [exportStepOf (shebang ++ (exportChunks false (requestedWorkspaces demoParams)
              (wtargetimages (requestedWorkspaces demoParams) (demoParams.target.getD ""))
              demoSpec.workspaces DefaultBaseImage (demoTask "t1").workspaces).1)]))) :=
  C4_one_import_one_export emptyConfig demoCluster demoParams demoRes demoPipeline demoSpecs 1
    (demoTask "t1") demoSpec rfl rfl rfl rfl (by decide) rfl rfl

/-- C5: the step at pipeline index zero never receives an import sub-step,
whatever requested workspaces it uses; when it uses at least one requested
workspace its sub-step list is the original list with only the combined
export sub-step appended. -/
theorem C5_first_step_export_only (conf : ResolverConfig) (cluster : Cluster)
    (params : Params) (res : ResolvedWrapperResource) (pl : Pipeline)
    (specs : List (String × TaskSpec)) (t : PipelineTask) (s0 : TaskSpec)
    (h : resolve conf cluster params = Except.ok res)
    (hpl : cluster.pipelines.lookup (params.pipelineref.getD "") = some pl)
    (hspecs : resolveTaskSpecs cluster pl.spec.tasks = Except.ok specs)
    (h0 : pl.spec.tasks[0]? = some t)
    (hint : hasAny (requestedWorkspaces params) (t.workspaces.map (fun u => u.workspace)) = true)
    (hlk : specs.lookup t.name = some s0) :
    res.content.spec.tasks[0]?.map (fun t2 => t2.taskSpec.map (fun s => s.steps)) =
      some (some (s0.steps ++
        [exportStepOf (shebang ++ (exportChunks true (requestedWorkspaces params)
          (wtargetimages (requestedWorkspaces params) (params.target.getD ""))
          s0.workspaces DefaultBaseImage t.workspaces).1)])) := by
  obtain ⟨pl0, specs0, newTasks, bfin, hpl0, hspecs0, htr, hres, -, -⟩ := resolve_ok_inv h
  rw [hpl0] at hpl
  injection hpl with hpl
  subst hpl
  rw [hspecs0] at hspecs
  injection hspecs with hspecs
  subst hspecs
  obtain ⟨hfirst, -⟩ := transformTasks_pointwise _ _ _ _ _ _ _ htr
  obtain ⟨bh, th, hx, hy⟩ := hfirst t h0
  cases hts : t.taskSpec with
  | none =>
    rw [transformTask] at hx
    simp [hint, hlk, hts] at hx
  | some e =>
    rw [transformTask_hit_zero _ _ _ _ _ _ e hint hlk hts] at hx
    simp only [Except.ok.injEq, Prod.mk.injEq] at hx
    obtain ⟨hx1, -⟩ := hx
    subst hx1
    rw [hres, hy]
    simp

/-- Closed instance of the C5 theorem: the task at index zero of the demo
request keeps its original sub-steps and gains only the export sub-step. -/
theorem C5_witness :
    demoRes.content.spec.tasks[0]?.map (fun t2 => t2.taskSpec.map (fun s => s.steps)) =
      some (some (demoSpec.steps ++
        [exportStepOf (shebang ++ (exportChunks true (requestedWorkspaces demoParams)
          (wtargetimages (requestedWorkspaces demoParams) (demoParams.target.getD ""))
          demoSpec.workspaces DefaultBaseImage (demoTask "t0").workspaces).1)])) :=
  C5_first_step_export_only emptyConfig demoCluster demoParams demoRes demoPipeline demoSpecs
    (demoTask "t0") demoSpec rfl rfl rfl rfl rfl rfl

/-- C8: target image resolution is a pure string transform: the map entry of
every requested workspace name is the target template with every occurrence
of the placeholder replaced by that name, and on the workspace set of a and b
with template repo slash placeholder the map is exactly a to repo/a and b to
repo/b. -/
theorem C8_target_resolution_pure (names : List String) (target w : String)
    (hw : w ∈ names) :
    lookupD (wtargetimages names target) w = replaceAll target placeholderToken w ∧
    wtargetimages ["a", "b"] "repo/\x7b\x7bworkspace\x7d\x7d" =
      [("a", "repo/a"), ("b", "repo/b")] := by
  constructor
  · unfold wtargetimages lookupD
    rw [lookup_keyed_map (fun k => replaceAll target placeholderToken k) (mem_setList.mpr hw)]
    rfl
  · rfl

/-- Closed instance of the C8 theorem at the workspace set of a and b and the
template of the claim. -/
theorem C8_witness :
    lookupD (wtargetimages ["a", "b"] "repo/\x7b\x7bworkspace\x7d\x7d") "a" =
      replaceAll "repo/\x7b\x7bworkspace\x7d\x7d" placeholderToken "a" ∧
    wtargetimages ["a", "b"] "repo/\x7b\x7bworkspace\x7d\x7d" =
      [("a", "repo/a"), ("b", "repo/b")] :=
  C8_target_resolution_pure ["a", "b"] "repo/\x7b\x7bworkspace\x7d\x7d" "a" (by decide)

/-- C9: the wrapper parameter is never read by the transformation: two
requests that agree on pipelineref, workspaces and target but differ
arbitrarily in the wrapper parameter and in the default-wrapper configuration
resolve to identical outputs. -/
theorem C9_wrapper_not_read (conf conf2 : ResolverConfig) (cluster : Cluster)
    (p p2 : Params)
    (h1 : p.pipelineref = p2.pipelineref)
    (h2 : p.workspaces = p2.workspaces)
    (h3 : p.target = p2.target) :
    resolve conf cluster p = resolve conf2 cluster p2 := by
  rw [resolve, resolve]
  rw [populate_err conf p, populate_err conf2 p2]
  simp only [requestedWorkspaces, populate_pipelineref, populate_workspaces, populate_target,
    h1, h2, h3]

/-- Closed instance of the C9 theorem: the demo request with wrapper w and no
default-wrapper resolves identically to the same request with no wrapper
parameter and a configured default-wrapper of dw. -/
theorem C9_witness :
    resolve emptyConfig demoCluster demoParams = resolve dwConfig demoCluster demoParamsAltWrapper :=
  C9_wrapper_not_read emptyConfig dwConfig demoCluster demoParams demoParamsAltWrapper rfl rfl rfl

/-- C10: resolution is deterministic: running it on equal inputs (same
configuration, same cluster contents, same parameters) yields equal outputs,
scripts included; the embedding is a pure function of its inputs with no
clock or randomness, and workspace names are iterated in sorted order. -/
theorem C10_deterministic (conf conf2 : ResolverConfig) (cluster cluster2 : Cluster)
    (p p2 : Params)
    (h1 : conf = conf2) (h2 : cluster = cluster2) (h3 : p = p2) :
    resolve conf cluster p = resolve conf2 cluster2 p2 ∧
    validateParams conf p = validateParams conf2 p2 := by
  subst h1
  subst h2
  subst h3
  exact ⟨rfl, rfl⟩

/-- Closed instance of the C10 theorem at the demo request. -/
theorem C10_witness :
    resolve emptyConfig demoCluster demoParams = resolve emptyConfig demoCluster demoParams ∧
    validateParams emptyConfig demoParams = validateParams emptyConfig demoParams :=
  C10_deterministic emptyConfig emptyConfig demoCluster demoCluster demoParams demoParams
    rfl rfl rfl

end Wrap
